import Mathlib

/-!
Shallow embedding of the I/O core of the opcua_kincony_a16v3 firmware:
the PCF8574 expander driver (pcf8574.c), the device abstraction functions
and OPC UA callbacks (components/model/model.c), and the I/O cache
(io_cache.c).  Machine integers are modelled as Nat with explicit
reduction modulo 2^8 / 2^16 where the C types force it; the cache mutex
take is modelled by an explicit Boolean telling whether the bounded wait
succeeded; out-parameters are modelled by passing the caller value in and
the final value out.
-/

/-- Status codes of the open62541 stack that the callbacks in model.c
actually return. -/
inductive UAStatus
  | good
  | badTypeMismatch
  | badInternalError
  deriving DecidableEq, Repr

/-- Scalar data types a client payload can carry; the callbacks only test
whether the type is the 16-bit unsigned one. -/
inductive UAType
  | uint16
  | uint32
  | boolean
  | int32
  deriving DecidableEq, Repr

/-- Model of a UA_DataValue payload handed to a write callback: the
hasValue flag, whether the variant is scalar, its declared type, and the
numeric content (reinterpreted modulo 2^16 when read as UInt16). -/
structure UADataValue where
  hasValue : Bool
  isScalar : Bool
  type : UAType
  data : Nat
  deriving DecidableEq, Repr

/-- Convenience constructor for a well-typed 16-bit scalar payload. -/
def mkUInt16Payload (w : Nat) : UADataValue :=
  { hasValue := true, isScalar := true, type := UAType.uint16, data := w }

/-- Result of a UA read callback: the status code, the hasValue flag of
the out DataValue, the scalar value copied into it (none when the
callback never sets it), and whether a source timestamp was attached. -/
structure UAReadResult where
  status : UAStatus
  hasValue : Bool
  value : Option Nat
  sourceTimestampAttached : Bool
  deriving DecidableEq, Repr

/- ===========================================================================
   PCF8574 driver (src/unnamed/part_000)
   =========================================================================== -/

/-- Model of pcf8574_read (part_000 lines 95-118): returns 0xFF when the
device pointer is null or the I2C transaction fails, otherwise the byte
read from the port pins.  The 0xFF error sentinel is indistinguishable
from a legitimate all-ones port reading. -/
def pcf8574_read (devNull : Bool) (busOk : Bool) (pinState : Nat) : Nat :=
  if devNull then 0xFF
  else if !busOk then 0xFF
  else pinState % 256

/-- Model of pcf8574_set_bit (part_000 lines 168-189): read-modify-write
of one bit.  The argument current is the byte pcf8574_read returned, and
writeOk tells whether the final pcf8574_write transaction succeeds.
Result: the byte actually written to the device (none when no write is
issued) and the Boolean return value of the C function. -/
def pcf8574_set_bit (bit : Nat) (value : Bool) (current : Nat) (writeOk : Bool) :
    Option Nat × Bool :=
  if bit > 7 then (none, false)
  else if current = 0xFF then (none, false)
  else
    let modified :=
      if value then current ||| (1 <<< bit)
      else current &&& (0xFF ^^^ (1 <<< bit))
    (some modified, writeOk)

/-- Model of pcf8574_get_bit (part_000 lines 203-215): reads the whole
byte (argument data is the pcf8574_read result) and extracts one bit;
returns false on invalid parameters or when the byte is the 0xFF
sentinel. -/
def pcf8574_get_bit (bit : Nat) (data : Nat) : Bool :=
  if bit > 7 then false
  else if data = 0xFF then false
  else ((data >>> bit) &&& 1) = 1

/- ===========================================================================
   Device abstraction layer (components/model/model.c)
   =========================================================================== -/

/-- Bitwise complement of a byte as C computes it on uint8_t
(in1 = ~in1 truncated back to 8 bits). -/
def byteNot (b : Nat) : Nat := 0xFF ^^^ (b % 256)

/-- Model of read_discrete_inputs_slow (model.c lines 68-89).  When lazy
initialization fails the function returns 0xFFFF.  Otherwise in1 and in2
are the bytes pcf8574_read returned for the two input expanders (0xFF on
a failed per-byte transaction), each byte is complemented, and the word
is assembled with expander 1 in the low byte and expander 2 in the high
byte. -/
def read_discrete_inputs_slow (initOk : Bool) (in1 in2 : Nat) : Nat :=
  if !initOk then 0xFFFF
  else (byteNot in2 <<< 8) ||| byteNot in1

/-- Model of write_discrete_outputs_slow (model.c lines 99-121): splits
the 16-bit word, complements each byte, and writes the two bytes to the
output expanders.  Returns the pair of bytes driven onto the expanders,
or none when lazy initialization failed and no write happened. -/
def write_discrete_outputs_slow (initOk : Bool) (outputs : Nat) :
    Option (Nat × Nat) :=
  if !initOk then none
  else some (byteNot (outputs % 256), byteNot ((outputs >>> 8) % 256))

/- ===========================================================================
   I/O cache (io_cache.c, embedded in components/ethernet/include/ethernet_connect.h)
   =========================================================================== -/

/-- Model of the io_cache_t structure (io_cache.c lines 52-64): cached
discrete input and output words with source and server timestamps. -/
structure IOCache where
  discrete_inputs_cache : Nat
  discrete_outputs_cache : Nat
  inputs_timestamp_ms : Nat
  outputs_timestamp_ms : Nat
  inputs_server_timestamp_ms : Nat
  outputs_server_timestamp_ms : Nat
  deriving DecidableEq, Repr

/-- State after io_cache_init: the structure is zeroed by memset. -/
def io_cache_zero : IOCache :=
  { discrete_inputs_cache := 0, discrete_outputs_cache := 0,
    inputs_timestamp_ms := 0, outputs_timestamp_ms := 0,
    inputs_server_timestamp_ms := 0, outputs_server_timestamp_ms := 0 }

/-- Model of io_cache_get_discrete_inputs (io_cache.c lines 121-130).
lockOk tells whether the 5 ms bounded mutex take succeeded.  srcIn and
srvIn are the values the caller wrote into its out-variables before the
call; the function writes through the pointers only inside the mutex
branch, so on timeout they keep their prior values and the local val
stays 0.  Result: (returned word, final source out-param, final server
out-param). -/
def io_cache_get_discrete_inputs (c : IOCache) (lockOk : Bool)
    (srcIn srvIn : Nat) : Nat × Nat × Nat :=
  if lockOk then
    (c.discrete_inputs_cache, c.inputs_timestamp_ms, c.inputs_server_timestamp_ms)
  else (0, srcIn, srvIn)

/-- Model of io_cache_get_discrete_outputs (io_cache.c lines 141-150),
with the same out-parameter convention as the inputs getter. -/
def io_cache_get_discrete_outputs (c : IOCache) (lockOk : Bool)
    (srcIn srvIn : Nat) : Nat × Nat × Nat :=
  if lockOk then
    (c.discrete_outputs_cache, c.outputs_timestamp_ms, c.outputs_server_timestamp_ms)
  else (0, srcIn, srvIn)

/-- Model of io_cache_update_discrete_inputs (io_cache.c lines 160-167):
within the 20 ms mutex take it stores the word, sets the source timestamp
to the caller argument and the server timestamp to get_current_time_ms()
(passed here as now); on timeout the update is dropped. -/
def io_cache_update_discrete_inputs (c : IOCache) (lockOk : Bool)
    (new_val : Nat) (source_timestamp_ms now : Nat) : IOCache :=
  if lockOk then
    { c with discrete_inputs_cache := new_val % 65536,
             inputs_timestamp_ms := source_timestamp_ms,
             inputs_server_timestamp_ms := now }
  else c

/-- Model of io_cache_update_discrete_outputs (io_cache.c lines 177-184),
symmetric to the inputs update. -/
def io_cache_update_discrete_outputs (c : IOCache) (lockOk : Bool)
    (new_val : Nat) (source_timestamp_ms now : Nat) : IOCache :=
  if lockOk then
    { c with discrete_outputs_cache := new_val % 65536,
             outputs_timestamp_ms := source_timestamp_ms,
             outputs_server_timestamp_ms := now }
  else c

/-- Model of the io_cache_adc_t structure (io_cache.c lines 72-77):
per-channel value, source timestamp, server timestamp and validity flag.
The C field is a float; the values stored are raw 12-bit ADC codes cast
from uint16_t, all exactly representable, so Nat is used. -/
structure AdcCache where
  adc_cache : Fin 4 → Nat
  adc_timestamps_ms : Fin 4 → Nat
  adc_server_timestamps_ms : Fin 4 → Nat
  adc_valid : Fin 4 → Bool
  deriving DecidableEq

/-- State after io_cache_init: everything zeroed, all validity flags
false. -/
def adc_cache_zero : AdcCache :=
  { adc_cache := fun _ => 0, adc_timestamps_ms := fun _ => 0,
    adc_server_timestamps_ms := fun _ => 0, adc_valid := fun _ => false }

/-- Model of io_cache_get_adc_channel (io_cache.c lines 198-211): returns
none when the channel is out of range, when the validity flag is false,
or when the 5 ms mutex take fails; otherwise the (value, source
timestamp, server timestamp) triple. -/
def io_cache_get_adc_channel (a : AdcCache) (lockOk : Bool) (channel : Nat) :
    Option (Nat × Nat × Nat) :=
  if h : channel < 4 then
    if !(a.adc_valid ⟨channel, h⟩) then none
    else if lockOk then
      some (a.adc_cache ⟨channel, h⟩, a.adc_timestamps_ms ⟨channel, h⟩,
            a.adc_server_timestamps_ms ⟨channel, h⟩)
    else none
  else none

/-- Model of io_cache_update_adc_channel (io_cache.c lines 234-244): out
of range channels are rejected; within the 20 ms mutex take the value and
both timestamps are stored and the validity flag set. -/
def io_cache_update_adc_channel (a : AdcCache) (lockOk : Bool)
    (channel : Nat) (new_value : Nat) (source_timestamp_ms now : Nat) : AdcCache :=
  if h : channel < 4 then
    if lockOk then
      { adc_cache := Function.update a.adc_cache ⟨channel, h⟩ new_value,
        adc_timestamps_ms := Function.update a.adc_timestamps_ms ⟨channel, h⟩ source_timestamp_ms,
        adc_server_timestamps_ms := Function.update a.adc_server_timestamps_ms ⟨channel, h⟩ now,
        adc_valid := Function.update a.adc_valid ⟨channel, h⟩ true }
    else a
  else a

/-- Model of io_cache_update_all_adc_channels (io_cache.c lines 254-266):
one mutex take covers the whole batch; all four channels receive their
value, the shared source timestamp, a server timestamp, and validity
true. -/
def io_cache_update_all_adc_channels (a : AdcCache) (lockOk : Bool)
    (values : Fin 4 → Nat) (source_timestamp_ms now : Nat) : AdcCache :=
  if lockOk then
    { adc_cache := values,
      adc_timestamps_ms := fun _ => source_timestamp_ms,
      adc_server_timestamps_ms := fun _ => now,
      adc_valid := fun _ => true }
  else a

/- ===========================================================================
   Model-local ADC state and the ADC read callback (model.c lines 499-656)
   =========================================================================== -/

/-- Model of the static state in model.c lines 499-503 that the ADC read
callback consults: the model-local adc_cache array of raw codes and the
per-channel source and server timestamps.  It is distinct from the global
AdcCache; readAdcChannel reads this one, not the global cache. -/
structure ModelAdcState where
  adc_cache : Fin 4 → Nat
  adc_timestamps_ms : Fin 4 → Nat
  adc_server_timestamps_ms : Fin 4 → Nat
  deriving DecidableEq

/-- Initial model-local ADC state: the static arrays are zero
initialized, so every channel holds value 0 with both timestamps 0. -/
def model_adc_zero : ModelAdcState :=
  { adc_cache := fun _ => 0, adc_timestamps_ms := fun _ => 0,
    adc_server_timestamps_ms := fun _ => 0 }

/-- Model of readAdcChannel (model.c lines 636-656): channel out of range
gives BADINTERNALERROR with the DataValue untouched; otherwise the
model-local cached raw code is copied into the DataValue, hasValue is
set, a source timestamp is attached exactly when the client asked for one
and the stored source timestamp is nonzero, and the status is GOOD.  No
validity flag is consulted and io_cache_get_adc_channel is not called. -/
def readAdcChannel (s : ModelAdcState) (channel : Nat)
    (sourceTimeStamp : Bool) : UAReadResult :=
  if h : channel < 4 then
    { status := UAStatus.good,
      hasValue := true,
      value := some (s.adc_cache ⟨channel, h⟩),
      sourceTimestampAttached :=
        sourceTimeStamp && decide (s.adc_timestamps_ms ⟨channel, h⟩ > 0) }
  else
    { status := UAStatus.badInternalError, hasValue := false,
      value := none, sourceTimestampAttached := false }

/- ===========================================================================
   Diagnostic counter and loopback pair (model.c lines 340-493)
   =========================================================================== -/

/-- Model of readDiagnosticCounter (model.c lines 399-412): the static
uint16_t counter is incremented (wrapping modulo 2^16) and the new value
is returned.  Result: (new counter state, value returned to the
client). -/
def readDiagnosticCounter (counter : Nat) : Nat × Nat :=
  ((counter + 1) % 65536, (counter + 1) % 65536)

/-- Model of the static loopback pair (model.c lines 341-342). -/
structure LoopbackState where
  loopback_input : Nat
  loopback_output : Nat
  deriving DecidableEq, Repr

/-- Model of writeLoopbackInput (model.c lines 453-466): a well-typed
16-bit scalar payload is stored in loopback_input and mirrored into
loopback_output in the same operation; any other payload yields
BADTYPEMISMATCH and leaves both slots untouched. -/
def writeLoopbackInput (s : LoopbackState) (data : UADataValue) :
    UAStatus × LoopbackState :=
  if data.hasValue ∧ data.isScalar ∧ data.type = UAType.uint16 then
    (UAStatus.good,
     { loopback_input := data.data % 65536, loopback_output := data.data % 65536 })
  else (UAStatus.badTypeMismatch, s)

/-- Model of readLoopbackOutput (model.c lines 481-493): returns the
mirrored slot with GOOD status. -/
def readLoopbackOutput (s : LoopbackState) : UAReadResult :=
  { status := UAStatus.good, hasValue := true,
    value := some s.loopback_output, sourceTimestampAttached := true }

/- ===========================================================================
   Discrete outputs write callback (model.c lines 220-240)
   =========================================================================== -/

/-- Combined state the discrete outputs write callback can touch: the
bytes last driven onto the two output expanders and the I/O cache. -/
structure OutputsState where
  hw_out1 : Nat
  hw_out2 : Nat
  cache : IOCache
  deriving DecidableEq, Repr

/-- Model of writeDiscreteOutputs (model.c lines 220-240): a payload that
is not a present, scalar, 16-bit unsigned value returns BADTYPEMISMATCH
before any hardware or cache access; otherwise the word is written to the
expanders via write_discrete_outputs_slow (a no-op when lazy init
failed), then the cache is updated with the sampled timestamp (now both
as source timestamp argument and mutex-protected server time). -/
def writeDiscreteOutputs (st : OutputsState) (data : UADataValue)
    (initOk lockOk : Bool) (now : Nat) : UAStatus × OutputsState :=
  if data.hasValue ∧ data.isScalar ∧ data.type = UAType.uint16 then
    let w := data.data % 65536
    let hw := write_discrete_outputs_slow initOk w
    let hw1 := (hw.getD (st.hw_out1, st.hw_out2)).1
    let hw2 := (hw.getD (st.hw_out1, st.hw_out2)).2
    (UAStatus.good,
     { hw_out1 := hw1, hw_out2 := hw2,
       cache := io_cache_update_discrete_outputs st.cache lockOk w now now })
  else (UAStatus.badTypeMismatch, st)

/- ===========================================================================
   ADC polling pass (model.c lines 573-592) as a trace of cache operations
   =========================================================================== -/

/-- Cache operations the polling side can invoke on the global ADC cache;
each constructor corresponds to one C function call, and each such call
performs exactly one mutex acquisition. -/
inductive CacheOp
  | updateAdcChannel (channel : Nat) (value : Nat) (src_ts : Nat)
  | updateAllAdcChannels (values : Fin 4 → Nat) (src_ts : Nat)
  deriving DecidableEq

/-- Number of mutex acquisitions a single cache operation performs: both
io_cache_update_adc_channel and io_cache_update_all_adc_channels take the
mutex exactly once. -/
def CacheOp.lockAcquisitions : CacheOp → Nat
  | CacheOp.updateAdcChannel _ _ _ => 1
  | CacheOp.updateAllAdcChannels _ _ => 1

/-- Semantics of one cache operation on the global ADC cache; lockOk is
whether its mutex take succeeded and now the server clock at that
moment. -/
def CacheOp.run (a : AdcCache) (lockOk : Bool) (now : Nat) :
    CacheOp → AdcCache
  | CacheOp.updateAdcChannel ch v ts => io_cache_update_adc_channel a lockOk ch v ts now
  | CacheOp.updateAllAdcChannels vs ts => io_cache_update_all_adc_channels a lockOk vs ts now

/-- Trace of global-cache operations performed by
update_all_adc_channels_slow (model.c lines 573-592) once the ADC handle
exists: the loop body calls io_cache_update_adc_channel once per channel,
in index order, passing each freshly read value and the single timestamp
sampled before the loop. -/
def update_all_adc_channels_slow_ops (readings : Fin 4 → Nat)
    (timestamp : Nat) : List CacheOp :=
  (List.finRange 4).map (fun i => CacheOp.updateAdcChannel i.val (readings i) timestamp)

/-- Modelled from the spec (section 4.2 and claim C9 wording): the
publication step the spec describes, a single call to the batch update
update_all_adc(values, src_ts) that takes the lock once for the whole
batch.  Used only to compare the spec wording with the trace the source
actually produces. -/
def adc_pass_spec_ops (readings : Fin 4 → Nat) (timestamp : Nat) : List CacheOp :=
  [CacheOp.updateAllAdcChannels readings timestamp]

/-- Model-local effect of update_all_adc_channels_slow on the static
arrays in model.c (lines 583-587): every channel receives its fresh
reading and the shared timestamp in both timestamp arrays. -/
def update_all_adc_channels_slow_local (readings : Fin 4 → Nat)
    (timestamp : Nat) : ModelAdcState :=
  { adc_cache := readings,
    adc_timestamps_ms := fun _ => timestamp,
    adc_server_timestamps_ms := fun _ => timestamp }

/- ===========================================================================
   Helper lemmas
   =========================================================================== -/

/-- Complementing a byte stays below 256. -/
theorem byteNot_lt (b : Nat) : byteNot b < 256 := by
  have h256 : (256 : Nat) = 2 ^ 8 := by norm_num
  unfold byteNot
  rw [h256]
  exact Nat.xor_lt_two_pow (by norm_num)
    (by rw [← h256]; exact Nat.mod_lt _ (by norm_num))

/-- Composing a small shifted high byte with a low byte below 256 is plain
positional arithmetic. -/
theorem shiftLeft_lor_split (hi lo : Nat) (hlo : lo < 256) :
    (hi <<< 8) ||| lo = 256 * hi + lo := by
  have hlo8 : lo < 2 ^ 8 := by simpa using hlo
  have h : 2 ^ 8 * hi + lo = 2 ^ 8 * hi ||| lo := Nat.mul_add_lt_is_or hlo8 hi
  rw [Nat.shiftLeft_eq, Nat.mul_comm, ← h]
  norm_num

/- ===========================================================================
   Claim theorems
   =========================================================================== -/

/-- Claim C3: for every 16-bit value W, a well-typed protocol write of W to
loopback_input succeeds, the following read of loopback_output returns
exactly W, and repeating the identical write leaves the callback result and
state unchanged (idempotence). -/
theorem C3_loopback_roundtrip (W : Nat) (hW : W < 65536) (s : LoopbackState) :
    (writeLoopbackInput s (mkUInt16Payload W)).1 = UAStatus.good ∧
    (readLoopbackOutput (writeLoopbackInput s (mkUInt16Payload W)).2).value = some W ∧
    writeLoopbackInput (writeLoopbackInput s (mkUInt16Payload W)).2 (mkUInt16Payload W) =
      writeLoopbackInput s (mkUInt16Payload W) := by
  unfold writeLoopbackInput readLoopbackOutput mkUInt16Payload
  simp [Nat.mod_eq_of_lt hW]

/-- Claim C3 witness: the round trip and idempotence at W = 43981 from the
zero state. -/
theorem C3_loopback_roundtrip_witness :
    43981 < 65536 ∧
    ((writeLoopbackInput ⟨0, 0⟩ (mkUInt16Payload 43981)).1 = UAStatus.good ∧
     (readLoopbackOutput (writeLoopbackInput ⟨0, 0⟩ (mkUInt16Payload 43981)).2).value =
       some 43981 ∧
     writeLoopbackInput (writeLoopbackInput ⟨0, 0⟩ (mkUInt16Payload 43981)).2
         (mkUInt16Payload 43981) =
       writeLoopbackInput ⟨0, 0⟩ (mkUInt16Payload 43981)) :=
  ⟨by decide, C3_loopback_roundtrip 43981 (by decide) ⟨0, 0⟩⟩

/-- Claim C4: each read of diagnostic_counter increments the 16-bit counter
by one (wrapping modulo 2^16) and returns the new value, so two successive
reads return V1 and V2 with V2 = V1 + 1 modulo 2^16. -/
theorem C4_diagnostic_counter_succ (counter : Nat) :
    (readDiagnosticCounter counter).1 = (counter + 1) % 65536 ∧
    (readDiagnosticCounter counter).2 = (readDiagnosticCounter counter).1 ∧
    (readDiagnosticCounter (readDiagnosticCounter counter).1).2 =
      ((readDiagnosticCounter counter).2 + 1) % 65536 :=
  ⟨rfl, rfl, rfl⟩

/-- Claim C5: a write to discrete_outputs whose payload is not a present
scalar 16-bit unsigned value returns BADTYPEMISMATCH and leaves the whole
state (expander bytes and cached outputs entry) untouched. -/
theorem C5_type_mismatch_no_side_effects (st : OutputsState) (data : UADataValue)
    (initOk lockOk : Bool) (now : Nat)
    (hbad : ¬ (data.hasValue ∧ data.isScalar ∧ data.type = UAType.uint16)) :
    writeDiscreteOutputs st data initOk lockOk now = (UAStatus.badTypeMismatch, st) := by
  unfold writeDiscreteOutputs
  simp [hbad]

/-- Claim C5 witness: a 32-bit scalar payload is rejected with no state
change. -/
theorem C5_type_mismatch_no_side_effects_witness :
    ¬ ((⟨true, true, UAType.uint32, 5⟩ : UADataValue).hasValue ∧
       (⟨true, true, UAType.uint32, 5⟩ : UADataValue).isScalar ∧
       (⟨true, true, UAType.uint32, 5⟩ : UADataValue).type = UAType.uint16) ∧
    writeDiscreteOutputs ⟨255, 255, io_cache_zero⟩ ⟨true, true, UAType.uint32, 5⟩ true true 42 =
      (UAStatus.badTypeMismatch, ⟨255, 255, io_cache_zero⟩) :=
  ⟨by decide,
   C5_type_mismatch_no_side_effects ⟨255, 255, io_cache_zero⟩ ⟨true, true, UAType.uint32, 5⟩
     true true 42 (by decide)⟩

/-- Claim C10: when the expander port byte reads as 0xFF, pcf8574_set_bit
returns false without issuing a write and pcf8574_get_bit returns false for
every bit position, and the legitimate all-ones reading is indistinguishable
from the bus-error sentinel of pcf8574_read. -/
theorem C10_allones_sentinel_indistinguishable (bit : Nat) (hb : bit ≤ 7)
    (v writeOk : Bool) (pin : Nat) :
    pcf8574_set_bit bit v 0xFF writeOk = (none, false) ∧
    pcf8574_get_bit bit 0xFF = false ∧
    pcf8574_read false false pin = pcf8574_read false true 0xFF := by
  have h7 : ¬ (bit > 7) := by omega
  unfold pcf8574_set_bit pcf8574_get_bit pcf8574_read
  simp [h7]

/-- Claim C10 witness at bit 3. -/
theorem C10_allones_sentinel_indistinguishable_witness :
    3 ≤ 7 ∧
    (pcf8574_set_bit 3 true 0xFF true = (none, false) ∧
     pcf8574_get_bit 3 0xFF = false ∧
     pcf8574_read false false 0 = pcf8574_read false true 0xFF) :=
  ⟨by decide, C10_allones_sentinel_indistinguishable 3 (by decide) true true 0⟩

/-- Claim C7: with the hardware initialized, read_discrete_inputs_slow on
expander bytes b1 and b2 returns ((~b2) << 8) | (~b1): each byte
complemented, expander 1 in the low byte and expander 2 in the high byte,
and every bit of the result is the negation of the corresponding raw bus
bit, so bit one at the cache boundary means signal present. -/
theorem C7_inputs_word_assembly (b1 b2 : Nat) (h1 : b1 < 256) (h2 : b2 < 256) :
    read_discrete_inputs_slow true b1 b2 = ((0xFF ^^^ b2) <<< 8) ||| (0xFF ^^^ b1) ∧
    read_discrete_inputs_slow true b1 b2 % 256 = 0xFF ^^^ b1 ∧
    read_discrete_inputs_slow true b1 b2 / 256 = 0xFF ^^^ b2 ∧
    (∀ i < 8, (read_discrete_inputs_slow true b1 b2).testBit i = !(b1.testBit i)) ∧
    (∀ i < 8, (read_discrete_inputs_slow true b1 b2).testBit (i + 8) = !(b2.testBit i)) := by
  have hb1 : (0xFF ^^^ b1) < 256 := by
    have h := byteNot_lt b1
    unfold byteNot at h
    rwa [Nat.mod_eq_of_lt h1] at h
  have e1 : read_discrete_inputs_slow true b1 b2 =
      ((0xFF ^^^ b2) <<< 8) ||| (0xFF ^^^ b1) := by
    unfold read_discrete_inputs_slow byteNot
    simp [Nat.mod_eq_of_lt h1, Nat.mod_eq_of_lt h2]
  have e2 : read_discrete_inputs_slow true b1 b2 =
      256 * (0xFF ^^^ b2) + (0xFF ^^^ b1) := by
    rw [e1, shiftLeft_lor_split _ _ hb1]
  have hff : (0xFF : Nat) = 2 ^ 8 - 1 := by norm_num
  refine ⟨e1, by omega, by omega, ?_, ?_⟩
  · intro i hi
    have h8 : ¬ (8 ≤ i) := by omega
    have h255 : (255 : Nat).testBit i = true := by
      rw [hff, Nat.testBit_two_pow_sub_one]
      simpa using hi
    rw [e1, Nat.testBit_lor, Nat.testBit_shiftLeft, Nat.testBit_xor]
    simp [h8, h255]
  · intro i hi
    have h8 : 8 ≤ i + 8 := by omega
    have h255 : (255 : Nat).testBit i = true := by
      rw [hff, Nat.testBit_two_pow_sub_one]
      simpa using hi
    have hpow : (256 : Nat) ≤ 2 ^ (i + 8) := by
      have h0 : (256 : Nat) = 2 ^ 8 := by norm_num
      rw [h0]
      exact Nat.pow_le_pow_right (by norm_num) (by omega)
    have hhi : (0xFF ^^^ b1).testBit (i + 8) = false :=
      Nat.testBit_eq_false_of_lt (lt_of_lt_of_le hb1 hpow)
    rw [e1, Nat.testBit_lor, Nat.testBit_shiftLeft, Nat.testBit_xor,
        Nat.add_sub_cancel, hhi]
    simp [h8, h255]

/-- Claim C7 witness at b1 = 0x12, b2 = 0x34. -/
theorem C7_inputs_word_assembly_witness :
    18 < 256 ∧ 52 < 256 ∧
    (read_discrete_inputs_slow true 18 52 = ((0xFF ^^^ 52) <<< 8) ||| (0xFF ^^^ 18) ∧
     read_discrete_inputs_slow true 18 52 % 256 = 0xFF ^^^ 18 ∧
     read_discrete_inputs_slow true 18 52 / 256 = 0xFF ^^^ 52 ∧
     (∀ i < 8, (read_discrete_inputs_slow true 18 52).testBit i = !((18 : Nat).testBit i)) ∧
     (∀ i < 8, (read_discrete_inputs_slow true 18 52).testBit (i + 8) = !((52 : Nat).testBit i))) :=
  ⟨by decide, by decide, C7_inputs_word_assembly 18 52 (by decide) (by decide)⟩

/-- Claim C8 counterexample: with initialization succeeded and both
per-byte expander reads failed (the driver returns the 0xFF sentinel for
each byte), read_discrete_inputs_slow returns 0x0000, not the all-ones
word 0xFFFF that the claim requires on a failed bus transaction. -/
theorem C8_counterexample :
    read_discrete_inputs_slow true 0xFF 0xFF = 0x0000 ∧
    read_discrete_inputs_slow true 0xFF 0xFF ≠ 0xFFFF := by
  decide

/-- Claim C8 (amended): read_discrete_inputs_slow returns 0xFFFF only when
lazy initialization failed; a failed per-byte expander read delivers the
0xFF driver sentinel, which is complemented like ordinary data, so the
failed byte contributes 0x00 to its half of the word, and both bytes
failing yields the all-zeros word. -/
theorem C8_sentinel_inverted (b1 b2 : Nat) :
    read_discrete_inputs_slow false b1 b2 = 0xFFFF ∧
    read_discrete_inputs_slow true 0xFF b2 % 256 = 0 ∧
    read_discrete_inputs_slow true b1 0xFF / 256 = 0 ∧
    read_discrete_inputs_slow true 0xFF 0xFF = 0 := by
  refine ⟨rfl, ?_, ?_, by decide⟩
  · have hz : byteNot 0xFF = 0 := by decide
    unfold read_discrete_inputs_slow
    rw [hz]
    simp [Nat.shiftLeft_eq, Nat.mul_mod_left]
  · have hz : byteNot 0xFF = 0 := by decide
    unfold read_discrete_inputs_slow
    rw [hz]
    simp [Nat.div_eq_of_lt (byteNot_lt b1)]

/-- Claim C1 counterexample: at the initial state, before any successful
ADC sample has been published for channel 0 (validity false everywhere,
all timestamps zero), the protocol read of adc_channel_1 returns the GOOD
status and carries the numeric value 0 in a set DataValue, contradicting
the claim that it returns a bad-value status and carries no data value. -/
theorem C1_counterexample :
    (readAdcChannel model_adc_zero 0 true).status = UAStatus.good ∧
    (readAdcChannel model_adc_zero 0 true).hasValue = true ∧
    (readAdcChannel model_adc_zero 0 true).value = some 0 := by
  decide

/-- Claim C1 (amended): while no ADC sample has been published for channel
c, the protocol read of adc_channel_(c+1) returns the GOOD status with the
zero-initialized model-local value 0 and without a source timestamp
attached; the cache-level getter io_cache_get_adc_channel does refuse (it
returns none while the validity flag is false), but the read callback
never calls it and reads the model-local array instead. -/
theorem C1_adc_read_bypasses_validity (ch : Fin 4) (stReq lockOk : Bool) :
    (readAdcChannel model_adc_zero ch.val stReq).status = UAStatus.good ∧
    (readAdcChannel model_adc_zero ch.val stReq).hasValue = true ∧
    (readAdcChannel model_adc_zero ch.val stReq).value = some 0 ∧
    (readAdcChannel model_adc_zero ch.val stReq).sourceTimestampAttached = false ∧
    io_cache_get_adc_channel adc_cache_zero lockOk ch.val = none := by
  unfold readAdcChannel io_cache_get_adc_channel model_adc_zero adc_cache_zero
  simp [ch.isLt]

/-- Claim C2 counterexample: a get_inputs call whose 5 ms mutex
acquisition times out returns value zero but leaves the caller's
out-variables at their prior contents (here 7 and 9), so the timestamp
out-parameters are not set to zero by the call. -/
theorem C2_counterexample :
    (io_cache_get_discrete_inputs io_cache_zero false 7 9).1 = 0 ∧
    (io_cache_get_discrete_inputs io_cache_zero false 7 9).2.1 ≠ 0 ∧
    (io_cache_get_discrete_inputs io_cache_zero false 7 9).2.2 ≠ 0 := by
  decide

/-- Claim C2 (amended): when the mutex acquisition times out, get_inputs
and get_outputs return value zero and leave the timestamp out-parameters
exactly as the caller initialized them (the pointers are written only
under the mutex); the protocol read callbacks initialize both
out-variables to zero before the call, so a timed-out protocol read
observes zero with both timestamps zero. -/
theorem C2_timeout_returns_zero (c : IOCache) (srcIn srvIn : Nat) :
    io_cache_get_discrete_inputs c false srcIn srvIn = (0, srcIn, srvIn) ∧
    io_cache_get_discrete_outputs c false srcIn srvIn = (0, srcIn, srvIn) ∧
    io_cache_get_discrete_inputs c false 0 0 = (0, 0, 0) ∧
    io_cache_get_discrete_outputs c false 0 0 = (0, 0, 0) :=
  ⟨rfl, rfl, rfl, rfl⟩

/-- Predicate packaging the claim C6 conditions for one cache entry over
two successive completed updates: the server timestamp is at or after the
source timestamp after each update, and both are non-decreasing from the
first update to the second. -/
def entryMonotone (src1 srv1 src2 srv2 : Nat) : Prop :=
  src1 ≤ srv1 ∧ src2 ≤ srv2 ∧ src1 ≤ src2 ∧ srv1 ≤ srv2

/-- Claim C6: for the inputs entry, the outputs entry and every ADC
channel entry, an update whose caller source timestamp is not later than
the update time leaves server_timestamp_ms at or above
source_timestamp_ms, and two successive completed updates under a
monotone clock (the second source sample taken no earlier than the first
update time) leave both timestamps non-decreasing. -/
theorem C6_cache_timestamp_monotonicity (c : IOCache) (a : AdcCache) (ch : Fin 4)
    (v1 v2 x1 x2 s1 n1 s2 n2 : Nat)
    (h1 : s1 ≤ n1) (h2 : n1 ≤ s2) (h3 : s2 ≤ n2) :
    entryMonotone
      (io_cache_update_discrete_inputs c true v1 s1 n1).inputs_timestamp_ms
      (io_cache_update_discrete_inputs c true v1 s1 n1).inputs_server_timestamp_ms
      (io_cache_update_discrete_inputs (io_cache_update_discrete_inputs c true v1 s1 n1)
        true v2 s2 n2).inputs_timestamp_ms
      (io_cache_update_discrete_inputs (io_cache_update_discrete_inputs c true v1 s1 n1)
        true v2 s2 n2).inputs_server_timestamp_ms ∧
    entryMonotone
      (io_cache_update_discrete_outputs c true v1 s1 n1).outputs_timestamp_ms
      (io_cache_update_discrete_outputs c true v1 s1 n1).outputs_server_timestamp_ms
      (io_cache_update_discrete_outputs (io_cache_update_discrete_outputs c true v1 s1 n1)
        true v2 s2 n2).outputs_timestamp_ms
      (io_cache_update_discrete_outputs (io_cache_update_discrete_outputs c true v1 s1 n1)
        true v2 s2 n2).outputs_server_timestamp_ms ∧
    entryMonotone
      ((io_cache_update_adc_channel a true ch.val x1 s1 n1).adc_timestamps_ms ch)
      ((io_cache_update_adc_channel a true ch.val x1 s1 n1).adc_server_timestamps_ms ch)
      ((io_cache_update_adc_channel (io_cache_update_adc_channel a true ch.val x1 s1 n1)
        true ch.val x2 s2 n2).adc_timestamps_ms ch)
      ((io_cache_update_adc_channel (io_cache_update_adc_channel a true ch.val x1 s1 n1)
        true ch.val x2 s2 n2).adc_server_timestamps_ms ch) := by
  unfold entryMonotone io_cache_update_discrete_inputs io_cache_update_discrete_outputs
    io_cache_update_adc_channel
  simp [ch.isLt]
  omega

/-- Claim C6 witness: two completed updates with source times 10 and 15
and update times 12 and 20 from the zeroed caches. -/
theorem C6_cache_timestamp_monotonicity_witness :
    10 ≤ 12 ∧ 12 ≤ 15 ∧ 15 ≤ 20 ∧
    (entryMonotone
      (io_cache_update_discrete_inputs io_cache_zero true 1 10 12).inputs_timestamp_ms
      (io_cache_update_discrete_inputs io_cache_zero true 1 10 12).inputs_server_timestamp_ms
      (io_cache_update_discrete_inputs
        (io_cache_update_discrete_inputs io_cache_zero true 1 10 12)
        true 2 15 20).inputs_timestamp_ms
      (io_cache_update_discrete_inputs
        (io_cache_update_discrete_inputs io_cache_zero true 1 10 12)
        true 2 15 20).inputs_server_timestamp_ms ∧
    entryMonotone
      (io_cache_update_discrete_outputs io_cache_zero true 1 10 12).outputs_timestamp_ms
      (io_cache_update_discrete_outputs io_cache_zero true 1 10 12).outputs_server_timestamp_ms
      (io_cache_update_discrete_outputs
        (io_cache_update_discrete_outputs io_cache_zero true 1 10 12)
        true 2 15 20).outputs_timestamp_ms
      (io_cache_update_discrete_outputs
        (io_cache_update_discrete_outputs io_cache_zero true 1 10 12)
        true 2 15 20).outputs_server_timestamp_ms ∧
    entryMonotone
      ((io_cache_update_adc_channel adc_cache_zero true (0 : Fin 4).val 3 10 12).adc_timestamps_ms (0 : Fin 4))
      ((io_cache_update_adc_channel adc_cache_zero true (0 : Fin 4).val 3 10 12).adc_server_timestamps_ms (0 : Fin 4))
      ((io_cache_update_adc_channel
        (io_cache_update_adc_channel adc_cache_zero true (0 : Fin 4).val 3 10 12)
        true (0 : Fin 4).val 4 15 20).adc_timestamps_ms (0 : Fin 4))
      ((io_cache_update_adc_channel
        (io_cache_update_adc_channel adc_cache_zero true (0 : Fin 4).val 3 10 12)
        true (0 : Fin 4).val 4 15 20).adc_server_timestamps_ms (0 : Fin 4))) :=
  ⟨by decide, by decide, by decide,
   C6_cache_timestamp_monotonicity io_cache_zero adc_cache_zero 0 1 2 3 4 10 12 15 20
     (by decide) (by decide) (by decide)⟩

/-- Claim C9 counterexample: the trace of global-cache operations the ADC
polling pass performs is four per-channel updates, not the single
lock-once batch update the claim describes; at concrete readings 100 with
timestamp 7, the traces differ and the pass acquires the lock four times
rather than once. -/
theorem C9_counterexample :
    update_all_adc_channels_slow_ops (fun _ => 100) 7 ≠
      adc_pass_spec_ops (fun _ => 100) 7 ∧
    ((update_all_adc_channels_slow_ops (fun _ => 100) 7).map
      CacheOp.lockAcquisitions).sum = 4 ∧
    ((adc_pass_spec_ops (fun _ => 100) 7).map CacheOp.lockAcquisitions).sum = 1 := by
  decide

/-- Claim C9 (amended): each polling pass reads the four channels
sequentially, captures one timestamp before the loop and uses it as the
source timestamp of all four in the model-local arrays, but it publishes
through four per-channel io_cache_update_adc_channel calls, one mutex
acquisition per channel (four per pass), instead of the one-acquisition
batch io_cache_update_all_adc_channels; when every acquisition succeeds
the resulting global cache state nevertheless coincides field by field
with what the single batch update would have produced. -/
theorem C9_adc_pass_per_channel_updates (readings : Fin 4 → Nat) (ts : Nat) :
    update_all_adc_channels_slow_ops readings ts =
      [CacheOp.updateAdcChannel 0 (readings 0) ts,
       CacheOp.updateAdcChannel 1 (readings 1) ts,
       CacheOp.updateAdcChannel 2 (readings 2) ts,
       CacheOp.updateAdcChannel 3 (readings 3) ts] ∧
    ((update_all_adc_channels_slow_ops readings ts).map
      CacheOp.lockAcquisitions).sum = 4 ∧
    ((adc_pass_spec_ops readings ts).map CacheOp.lockAcquisitions).sum = 1 ∧
    update_all_adc_channels_slow_local readings ts =
      ⟨readings, fun _ => ts, fun _ => ts⟩ ∧
    (∀ (a : AdcCache) (now : Nat) (i : Fin 4),
      ((update_all_adc_channels_slow_ops readings ts).foldl
          (fun s op => CacheOp.run s true now op) a).adc_cache i =
        ((adc_pass_spec_ops readings ts).foldl
          (fun s op => CacheOp.run s true now op) a).adc_cache i ∧
      ((update_all_adc_channels_slow_ops readings ts).foldl
          (fun s op => CacheOp.run s true now op) a).adc_timestamps_ms i =
        ((adc_pass_spec_ops readings ts).foldl
          (fun s op => CacheOp.run s true now op) a).adc_timestamps_ms i ∧
      ((update_all_adc_channels_slow_ops readings ts).foldl
          (fun s op => CacheOp.run s true now op) a).adc_server_timestamps_ms i =
        ((adc_pass_spec_ops readings ts).foldl
          (fun s op => CacheOp.run s true now op) a).adc_server_timestamps_ms i ∧
      ((update_all_adc_channels_slow_ops readings ts).foldl
          (fun s op => CacheOp.run s true now op) a).adc_valid i =
        ((adc_pass_spec_ops readings ts).foldl
          (fun s op => CacheOp.run s true now op) a).adc_valid i) := by
  refine ⟨rfl, rfl, rfl, rfl, ?_⟩
  intro a now i
  fin_cases i <;>
    (simp only [update_all_adc_channels_slow_ops, adc_pass_spec_ops, CacheOp.run,
       io_cache_update_adc_channel, io_cache_update_all_adc_channels, List.finRange,
       List.pmap, List.map, List.foldl, List.range, List.range.loop]
     simp)
